import Mathlib

/-
Verification development for the entity-nexus viewer.

Shallow embedding of the frontend core: the dictionary schema resolver
(src/frontend/src/app/explorer/page.tsx), the graph node/edge visual
encoder and view-local interaction layer (src/unnamed/part_002, with the
same edge-label logic in src/unnamed/part_001), the home-page graph fetch
handler (src/frontend/src/app/page.tsx with src/frontend/src/lib/api.ts),
and the golden-record lineage tooltip (src/unnamed/part_002, EntityDetails).

JavaScript conventions modelled explicitly: a missing object property is
Option.none; the JS or-chain `a || b` on strings takes `a` unless it is
absent or the empty string (both falsy); on numbers it takes `a` unless it
is absent or zero; a thrown exception is Option.none at the function level.
-/

namespace EntityNexus

/-- JS string or-else: `a || b` where a string value is falsy exactly when it
is absent (undefined) or the empty string. -/
def jsOrStr (v : Option String) (d : String) : String :=
  match v with
  | some s => if s = "" then d else s
  | none => d

/-- JS property read on an object literal modelled as a key-value list. -/
def getProp {α : Type} (pairs : List (String × α)) (k : String) : Option α :=
  (pairs.find? (fun p => p.1 == k)).map (fun p => p.2)

/-- A raw dictionary row as delivered by the references API: either a
key-value object or a non-object value such as null (a malformed row). -/
inductive RawRow where
  | obj (pairs : List (String × String)) : RawRow
  | null : RawRow
deriving DecidableEq, Repr

/-- Canonical dictionary item shape produced by `normalizedDict` in
src/frontend/src/app/explorer/page.tsx lines 57-63. -/
structure DictionaryItem where
  fieldName : String
  description : String
  dnbCode : String
  type : String
  length : String
deriving DecidableEq, Repr

/-- The per-row normalization from explorer/page.tsx lines 57-63.  Each
canonical field is a JS or-chain over alias keys, e.g.
`item['Field Name'] || item['Element Name'] || item['Name'] || 'Unknown'`.
A null row makes every property access throw a TypeError, modelled as
`none`; an object row never throws. -/
def normalizeRow : RawRow → Option DictionaryItem
  | RawRow.null => none
  | RawRow.obj pairs =>
      some
        { fieldName :=
            jsOrStr (getProp pairs "Field Name")
              (jsOrStr (getProp pairs "Element Name")
                (jsOrStr (getProp pairs "Name") "Unknown"))
          description :=
            jsOrStr (getProp pairs "Description")
              (jsOrStr (getProp pairs "Definition") "")
          dnbCode :=
            jsOrStr (getProp pairs "D&B Code")
              (jsOrStr (getProp pairs "Dnb Code") "")
          type :=
            jsOrStr (getProp pairs "Data Type")
              (jsOrStr (getProp pairs "Type") "")
          length := jsOrStr (getProp pairs "Length") "" }

/-- Ordered alias fallback by VALUE TRUTHINESS: take the first alias whose
value is present and nonempty; otherwise the default.  This is the rule the
or-chains of `normalizedDict` actually implement. -/
def resolveTruthy (pairs : List (String × String)) : List String → String → String
  | [], d => d
  | a :: rest, d =>
      match getProp pairs a with
      | some v => if v = "" then resolveTruthy pairs rest d else v
      | none => resolveTruthy pairs rest d

/-- Ordered alias fallback by KEY PRESENCE, as the spec words it: take the
value of the first alias key present in the record even when that value is
the empty string; only when no alias key is present take the default.
Second definition for refinement comparison against `normalizeRow`. -/
def resolveSpecField (pairs : List (String × String)) : List String → String → String
  | [], d => d
  | a :: rest, d =>
      match getProp pairs a with
      | some v => v
      | none => resolveSpecField pairs rest d

/-- Node payload data (src/unnamed/part_002): an optional preset label, an
optional display name, an optional numeric risk score. -/
structure NData where
  label : Option String
  name : Option String
  risk_score : Option Int
deriving DecidableEq, Repr

/-- A graph node as consumed by GraphViz (the react-flow Node shape the
repository uses: id, position, optional node type, data). -/
structure GNode where
  id : String
  position : Int × Int
  nodeType : Option String
  data : NData
deriving DecidableEq, Repr

/-- Edge payload data: an optional numeric ownership percentage. -/
structure EdgeData where
  ownership_percentage : Option Int
deriving DecidableEq, Repr

/-- A graph edge as consumed by GraphViz: id, endpoints, optional preset
label, optional data. -/
structure GEdge where
  id : String
  source : String
  target : String
  label : Option String
  data : Option EdgeData
deriving DecidableEq, Repr

/-- A node's derived fill and border (the `style` object of part_002). -/
structure NodeStyle where
  background : String
  border : String
deriving DecidableEq, Repr

/-- Neutral style applied outside risk mode (part_002 line 41). -/
def baseStyle : NodeStyle := { background := "#fff", border := "1px solid #777" }

/-- High-risk encoding (part_002 line 45). -/
def highRiskStyle : NodeStyle := { background := "#fee2e2", border := "2px solid #ef4444" }

/-- Medium-risk encoding (part_002 line 46). -/
def mediumRiskStyle : NodeStyle := { background := "#fef3c7", border := "2px solid #f59e0b" }

/-- Low-risk encoding (part_002 line 47). -/
def lowRiskStyle : NodeStyle := { background := "#dcfce7", border := "2px solid #22c55e" }

/-- Style selection of `processNodes` (part_002 lines 41-48).  In risk mode
the score is `(node.data?.risk_score as number) || 0`, i.e. the value when
present (zero stays zero) and 0 when absent. -/
def nodeStyle (isRiskMode : Bool) (n : GNode) : NodeStyle :=
  if isRiskMode then
    let score := n.data.risk_score.getD 0
    if score > 75 then highRiskStyle
    else if score > 50 then mediumRiskStyle
    else lowRiskStyle
  else baseStyle

/-- The rendered label of a node: the display-name line and, in risk mode
only, a risk-score line (part_002 lines 55-64). -/
structure NodeLabel where
  displayName : String
  riskLine : Option String
deriving DecidableEq, Repr

/-- Display-name line `String(node.data.name || node.id)` (part_002 line 57):
the name when present and nonempty, otherwise the node id. -/
def displayName (n : GNode) : String :=
  match n.data.name with
  | some s => if s = "" then n.id else s
  | none => n.id

/-- Risk-score text `node.data.risk_score || 'N/A'` (part_002 line 60):
the literal marker when the score is absent or zero (falsy), else the
number. -/
def riskScoreText (v : Option Int) : String :=
  match v with
  | some x => if x = 0 then "N/A" else toString x
  | none => "N/A"

/-- The risk-score line, rendered only in risk mode (part_002 lines 58-62). -/
def riskLine (isRiskMode : Bool) (n : GNode) : Option String :=
  if isRiskMode then some ("Risk Score: " ++ riskScoreText n.data.risk_score) else none

/-- A processed node: id, position and node type carried over by the object
spread, plus derived style and rendered label (part_002 lines 50-66). -/
structure PNode where
  id : String
  position : Int × Int
  nodeType : Option String
  style : NodeStyle
  label : NodeLabel
deriving DecidableEq, Repr

/-- Transformation of one node by `processNodes` (part_002 lines 40-67). -/
def processNode (isRiskMode : Bool) (n : GNode) : PNode :=
  { id := n.id
    position := n.position
    nodeType := n.nodeType
    style := nodeStyle isRiskMode n
    label := { displayName := displayName n, riskLine := riskLine isRiskMode n } }

/-- `processNodes` (part_002 lines 39-68). -/
def processNodes (nodes : List GNode) (isRiskMode : Bool) : List PNode :=
  nodes.map (processNode isRiskMode)

/-- Derived edge label (part_002 lines 30-32, identical in part_001 lines
27-29): `edge.data && edge.data.ownership_percentage ? pct% : (edge.label || '')`.
Both tests are JS truthiness: a present-but-zero percentage is falsy and
falls through to the preset label. -/
def edgeLabel (e : GEdge) : String :=
  match e.data with
  | some d =>
      match d.ownership_percentage with
      | some v => if v = 0 then jsOrStr e.label "" else toString v ++ "%"
      | none => jsOrStr e.label ""
  | none => jsOrStr e.label ""

/-- A processed edge: id and endpoints carried by the spread, derived label
(the fixed stroke and label styles carry no information). -/
structure PEdge where
  id : String
  source : String
  target : String
  label : String
deriving DecidableEq, Repr

/-- Transformation of one edge by `processEdges` (part_002 lines 28-35). -/
def processEdge (e : GEdge) : PEdge :=
  { id := e.id, source := e.source, target := e.target, label := edgeLabel e }

/-- `processEdges` (part_002 lines 27-36, part_001 lines 24-33). -/
def processEdges (edges : List GEdge) : List PEdge :=
  edges.map processEdge

/-- The graph payload returned by `GET /graph/id` as read by page.tsx:
either key may be missing from the response body. -/
structure GraphPayload where
  nodes : Option (List GNode)
  edges : Option (List GEdge)
deriving DecidableEq, Repr

/-- The home page's state slices touched by `handleSearch`
(src/frontend/src/app/page.tsx lines 11-14). -/
structure HomeState where
  nodes : List GNode
  edges : List GEdge
  error : String
deriving DecidableEq, Repr

/-- Mock fallback nodes installed when the graph fetch fails
(page.tsx lines 28-32). -/
def mockNodes : List GNode :=
  [ { id := "1", position := (0, 0), nodeType := some "input",
      data := { label := some "Gorman Mfg", name := none, risk_score := none } },
    { id := "2", position := (0, 100), nodeType := none,
      data := { label := some "Subsidiary A", name := none, risk_score := none } },
    { id := "3", position := (200, 0), nodeType := none,
      data := { label := some "Subsidiary B", name := none, risk_score := none } } ]

/-- Mock fallback edges installed when the graph fetch fails
(page.tsx lines 33-36). -/
def mockEdges : List GEdge :=
  [ { id := "e1-2", source := "1", target := "2", label := some "OWNS", data := none },
    { id := "e1-3", source := "1", target := "3", label := some "PARTNER", data := none } ]

/-- `handleSearch` (page.tsx lines 16-40) applied to the outcome of
`fetchEntityGraph` (lib/api.ts lines 3-9): on success the node and edge
slices are wholesale replaced by `data.nodes || []` and `data.edges || []`
and the error notice is cleared; on any failure (network error, non-ok
HTTP status thrown by fetchEntityGraph, or JSON parse failure) the catch
block sets an error notice and installs the mock fallback data.  The
result never depends on the previous state. -/
def handleSearch (_sPrev : HomeState) (r : Except Unit GraphPayload) : HomeState :=
  match r with
  | Except.ok data =>
      { nodes := data.nodes.getD [], edges := data.edges.getD [], error := "" }
  | Except.error _ =>
      { nodes := mockNodes, edges := mockEdges,
        error := "Failed to fetch graph data. Is the backend running?" }

/-- A sequence of graph-fetch completions applied in arrival order: each
completion runs the `handleSearch` continuation on the then-current state.
There is no staleness guard in page.tsx, so every arrival is applied. -/
def applyCompletions (s : HomeState) (rs : List (Except Unit GraphPayload)) : HomeState :=
  rs.foldl handleSearch s

/-- The outcome of a `fetch(url).then(res => res.json())` chain whose
`res.ok` is never checked (all three explorer fetches): the promise
rejects on a network failure or an invalid-JSON body, and RESOLVES with
the decoded body otherwise — including for an HTTP error response whose
body is valid JSON, which resolves exactly like a 200 does. -/
inductive FetchOutcome (α : Type) where
  | rejected : FetchOutcome α
  | resolved (httpOk : Bool) (body : α) : FetchOutcome α
deriving DecidableEq, Repr

/-- A decoded JSON body that the code expects to be an array of α but
never validates: it may equally be a non-array JSON value, such as an HTTP
error object (kept opaque as a string). -/
inductive JsArr (α : Type) where
  | arr (xs : List α) : JsArr α
  | nonArray (v : String) : JsArr α
deriving DecidableEq, Repr

/-- Dictionary fetch (explorer/page.tsx lines 45-47): the attached catch
turns a promise rejection into the empty array, but a resolved body —
res.ok and shape unchecked — passes through as-is. -/
def fetchDict : FetchOutcome (JsArr RawRow) → JsArr RawRow
  | FetchOutcome.rejected => JsArr.arr []
  | FetchOutcome.resolved _ body => body

/-- Sample fetch (explorer/page.tsx lines 50-52): the attached catch turns
a promise rejection into null (modelled `none`), but a resolved body —
res.ok unchecked — is stored and later displayed verbatim, even when it is
an HTTP error body.  The sample JSON is opaque to the viewer and modelled
as a string. -/
def fetchSample : FetchOutcome String → Option String
  | FetchOutcome.rejected => none
  | FetchOutcome.resolved _ body => some body

/-- A module list entry (explorer/page.tsx lines 5-11). -/
structure Module where
  id : String
  name : String
  has_dictionary : Bool
  has_sample : Bool
  has_pdf : Bool
deriving DecidableEq, Repr

/-- Module list fetch (explorer/page.tsx lines 30-38): a promise rejection
is only logged, leaving the previous modules value (the initial empty
array) in place; a resolved body — res.ok and shape unchecked — is
committed by `setModules(data)` before the `data.length` guard runs, so a
non-array body is stored as-is. -/
def loadModules (prev : JsArr Module) : FetchOutcome (JsArr Module) → JsArr Module
  | FetchOutcome.rejected => prev
  | FetchOutcome.resolved _ body => body

/-- The sidebar render `modules.map(...)` (explorer/page.tsx lines 79-91):
it projects each module's display row, but on a non-array modules value
the map call throws a TypeError that crashes the render; `none` models the
crash. -/
def renderModules : JsArr Module → Option (List String)
  | JsArr.arr ms => some (ms.map Module.name)
  | JsArr.nonArray _ => none

/-- The explorer content slices committed by the Promise.all continuation
(explorer/page.tsx lines 54-68). -/
structure ExplorerState where
  dictionary : List DictionaryItem
  sample : Option String
  loading : Bool
deriving DecidableEq, Repr

/-- The Promise.all continuation (explorer/page.tsx lines 54-68): it maps
the dictionary rows through per-row normalization and then commits all
slices and clears loading.  If `dictData` is not an array its `.map` is
not a function, and if any row is null the normalizer throws; either way
the handler dies before committing anything and no catch follows, leaving
the panel wedged in loading — `none` models that undegraded death. -/
def explorerLoad (dictData : JsArr RawRow) (sampleData : Option String) :
    Option ExplorerState :=
  match dictData with
  | JsArr.nonArray _ => none
  | JsArr.arr rows =>
      (rows.mapM normalizeRow).map
        (fun d => { dictionary := d, sample := sampleData, loading := false })

/-- A lineage entry (src/unnamed/part_002, EntityDetails lines 125-131). -/
structure LineageInfo where
  source : String
  payload_id : String
  confidence : ℚ
  file_name : Option String
  json_path : Option String
deriving DecidableEq, Repr

/-- A fetched golden record (EntityDetails lines 133-140).  Attribute
values may be null in the response; `lineage_metadata` itself may be
missing (the optional chain `data.lineage_metadata?.[fieldKey]`). -/
structure EntityData where
  name : Option String
  legal_name : Option String
  revenue_usd : Option Int
  employee_count : Option Int
  jurisdiction_code : Option String
  lineage_metadata : Option (List (String × LineageInfo))
deriving DecidableEq, Repr

/-- EntityDetails state slices set by its fetch (lines 154-168). -/
structure DetailsState where
  data : Option EntityData
  error : String
deriving DecidableEq, Repr

/-- The golden-record fetch handler `fetchData` (EntityDetails lines
154-168): success stores the record with no error; any failure leaves the
record absent and sets the error notice. -/
def fetchData (r : Except Unit EntityData) : DetailsState :=
  match r with
  | Except.ok j => { data := some j, error := "" }
  | Except.error _ => { data := none, error := "Could not load entity details." }

/-- JS `Number.prototype.toFixed(0)`: the integer nearest to x, a tie going
to the larger integer; equals the floor of x + 1/2. -/
def toFixed0 (x : ℚ) : Int := ⌊x + 1 / 2⌋

/-- The lineage tooltip content (EntityDetails lines 188-195): source line,
payload id truncated by `substring(0, 8)` with an appended ellipsis,
confidence as `(confidence * 100).toFixed(0)` percent, and file/path lines
rendered only when the corresponding field is truthy. -/
structure Tooltip where
  source : String
  payloadIdText : String
  confidenceText : String
  fileLine : Option String
  pathLine : Option String
deriving DecidableEq, Repr

/-- JS truthiness guard on an optional string line: the line renders only
when the value is present and nonempty. -/
def truthyLine (v : Option String) : Option String :=
  match v with
  | some s => if s = "" then none else some s
  | none => none

/-- Tooltip derivation from one lineage entry (EntityDetails lines 188-195). -/
def renderTooltip (l : LineageInfo) : Tooltip :=
  { source := l.source
    payloadIdText := l.payload_id.take 8 ++ "..."
    confidenceText := toString (toFixed0 (l.confidence * 100)) ++ "%"
    fileLine := truthyLine l.file_name
    pathLine := truthyLine l.json_path }

/-- `renderField`'s tooltip logic (EntityDetails lines 177-199): the lineage
entry for the field key is looked up through the optional chain on
`lineage_metadata`; the tooltip block renders exactly when an entry exists. -/
def renderFieldTooltip (d : EntityData) (fieldKey : String) : Option Tooltip :=
  match d.lineage_metadata with
  | some lm => (getProp lm fieldKey).map renderTooltip
  | none => none

/-- A user-drawn connection (the react-flow Connection carried to
`onConnect` in part_002 lines 78-81). -/
structure Connection where
  source : String
  target : String
deriving DecidableEq, Repr

/-- Modelled from the spec: user-drawn edges are forwarded into the view's
local working copy.  This is the external graph library's `addEdge` helper
called by `onConnect` (part_002 line 79); the helper itself lives outside
src/.  It appends an edge derived from the connection unless an endpoint is
missing. -/
def addEdge (c : Connection) (eds : List PEdge) : List PEdge :=
  if c.source = "" ∨ c.target = "" then eds
  else eds ++ [{ id := "xy-edge__" ++ c.source ++ "-" ++ c.target,
                 source := c.source, target := c.target, label := "" }]

/-- The viewing session around GraphViz: the upstream slices owned by the
home page (page.tsx) and the view-local working copy owned by the
`useNodesState`/`useEdgesState` hooks inside GraphViz (part_002 lines
70-71). -/
structure SessionState where
  upstreamNodes : List GNode
  upstreamEdges : List GEdge
  viewNodes : List PNode
  viewEdges : List PEdge
deriving DecidableEq, Repr

/-- `onConnect` (part_002 lines 78-81): the new edge is added to the
view-local edge copy only; no upstream slice is touched. -/
def onConnect (st : SessionState) (c : Connection) : SessionState :=
  { st with viewEdges := addEdge c st.viewEdges }

/-- Modelled from the spec: a drag position change is applied by the
library node-state hook to the view-local node copy only (the
`onNodesChange` handler wired in part_002 line 107 lives outside src/). -/
def onNodeDrag (st : SessionState) (nodeId : String) (pos : Int × Int) : SessionState :=
  { st with
    viewNodes := st.viewNodes.map (fun n => if n.id = nodeId then { n with position := pos } else n) }

/-- The GraphViz synchronization effect (part_002 lines 73-76): whenever the
upstream inputs or the risk mode change, the view-local copies are wholesale
recomputed from the upstream slices, discarding any local edits. -/
def syncFromProps (st : SessionState) (riskMode : Bool) : SessionState :=
  { st with
    viewNodes := processNodes st.upstreamNodes riskMode
    viewEdges := processEdges st.upstreamEdges }

/-- A raw row whose first alias key is present with an empty-string value
while a later alias key holds a nonempty value. -/
def c1Row : List (String × String) := [("Field Name", ""), ("Element Name", "X")]

/-- The alias sequence for the canonical fieldName. -/
def fieldNameAliases : List String := ["Field Name", "Element Name", "Name"]

/-- The fully defaulted dictionary item the code produces for a record with
no truthy alias values. -/
def defaultItem : DictionaryItem :=
  { fieldName := "Unknown", description := "", dnbCode := "", type := "", length := "" }

/-- A node with only a risk score, for threshold checks. -/
def nodeWithScore (v : Option Int) : GNode :=
  { id := "n", position := (0, 0), nodeType := none,
    data := { label := none, name := none, risk_score := v } }

/-- An edge carrying a zero ownership percentage and a preset label. -/
def c3Edge : GEdge :=
  { id := "e1", source := "a", target := "b", label := some "PARTNER",
    data := some { ownership_percentage := some 0 } }

/-- An edge carrying a 40 ownership percentage. -/
def pctEdge : GEdge :=
  { id := "e2", source := "a", target := "b", label := none,
    data := some { ownership_percentage := some 40 } }

/-- An edge with no data and a preset label. -/
def presetEdge : GEdge :=
  { id := "e3", source := "a", target := "b", label := some "PARTNER", data := none }

/-- An edge with neither ownership percentage nor preset label. -/
def bareEdge : GEdge :=
  { id := "e4", source := "a", target := "b", label := none, data := none }

/-- The home page's initial empty state. -/
def emptyHome : HomeState := { nodes := [], edges := [], error := "" }

/-- A node belonging to entity A's graph. -/
def nodeA : GNode :=
  { id := "A1", position := (0, 0), nodeType := none,
    data := { label := none, name := some "Entity A Sub", risk_score := none } }

/-- A node belonging to entity B's graph. -/
def nodeB : GNode :=
  { id := "B1", position := (0, 0), nodeType := none,
    data := { label := none, name := some "Entity B Sub", risk_score := none } }

/-- Entity A's graph payload. -/
def payloadA : GraphPayload := { nodes := some [nodeA], edges := some [] }

/-- Entity B's graph payload. -/
def payloadB : GraphPayload := { nodes := some [nodeB], edges := some [] }

/-- The lineage entry of testable property 7 of the spec. -/
def lineageEx : LineageInfo :=
  { source := "ERP", payload_id := "abcdefgh1234", confidence := 87 / 100,
    file_name := none, json_path := none }

/-- A golden record carrying `lineageEx` for its revenue attribute. -/
def entityEx : EntityData :=
  { name := some "Gorman Mfg", legal_name := none, revenue_usd := some 1000000,
    employee_count := none, jurisdiction_code := none,
    lineage_metadata := some [("revenue_usd", lineageEx)] }

/-- A session whose upstream slices hold entity A's graph and whose view
was synchronized from them in normal mode. -/
def sessionEx : SessionState :=
  { upstreamNodes := [nodeA], upstreamEdges := [presetEdge],
    viewNodes := processNodes [nodeA] false, viewEdges := processEdges [presetEdge] }

/-- A user-drawn connection between two on-screen nodes. -/
def connEx : Connection := { source := "A1", target := "B1" }

/-- A node with an empty id and no name: the one shape whose rendered
display-name line is blank. -/
def blankNode : GNode :=
  { id := "", position := (0, 0), nodeType := none,
    data := { label := none, name := none, risk_score := none } }

/-- A node with no name and a nonempty id. -/
def unnamedNode : GNode :=
  { id := "N1", position := (0, 0), nodeType := none,
    data := { label := none, name := none, risk_score := some 10 } }

/-- A node whose name is present but the empty string. -/
def emptyNameNode : GNode :=
  { id := "N2", position := (0, 0), nodeType := none,
    data := { label := none, name := some "", risk_score := none } }

/-- An HTTP 500 body decoded as JSON: a non-array error object, kept
opaque. -/
def errorBodyJson : String := "detail: Internal Server Error"

/-- Unfolding lemma: the or-chain over an alias list steps through `jsOrStr`. -/
theorem resolveTruthy_cons (pairs : List (String × String)) (a : String)
    (rest : List String) (d : String) :
    resolveTruthy pairs (a :: rest) d = jsOrStr (getProp pairs a) (resolveTruthy pairs rest d) := by
  cases h : getProp pairs a <;> simp [resolveTruthy, jsOrStr, h]

/-- The toFixed(0) value is within half a unit of its argument. -/
theorem toFixed0_nearest (x : ℚ) : |(toFixed0 x : ℚ) - x| ≤ 1 / 2 := by
  have h1 : (⌊x + 1 / 2⌋ : ℚ) ≤ x + 1 / 2 := Int.floor_le _
  have h2 : x + 1 / 2 < ⌊x + 1 / 2⌋ + 1 := Int.lt_floor_add_one _
  rw [abs_le]
  unfold toFixed0
  constructor <;> linarith

/-- C1, counterexample.  The claim says key presence decides, so on a row
whose first alias key "Field Name" is present with the empty-string value
the canonical fieldName must be that empty string (as `resolveSpecField`,
the resolver written from the spec's words, indeed yields); but the code's
or-chain skips the falsy empty string and yields "X" from the later alias. -/
theorem C1_presence_counterexample :
    getProp c1Row "Field Name" = some "" ∧
    resolveSpecField c1Row fieldNameAliases "Unknown" = "" ∧
    (normalizeRow (RawRow.obj c1Row)).map DictionaryItem.fieldName = some "X" ∧
    ("X" : String) ≠ "" := by decide

/-- C1, amended.  The resolver assigns each canonical field the value of the
first alias whose value is truthy (present and nonempty): `normalizeRow`
computes every field by `resolveTruthy` over its alias sequence; a present
alias with a truthy value wins immediately, while an alias that is present
with an empty-string value, or absent, is skipped in favor of later
aliases, and the default is taken only when no alias value is truthy. -/
theorem C1_truthy_fallback :
    (∀ pairs : List (String × String),
      normalizeRow (RawRow.obj pairs) =
        some
          { fieldName := resolveTruthy pairs fieldNameAliases "Unknown"
            description := resolveTruthy pairs ["Description", "Definition"] ""
            dnbCode := resolveTruthy pairs ["D&B Code", "Dnb Code"] ""
            type := resolveTruthy pairs ["Data Type", "Type"] ""
            length := resolveTruthy pairs ["Length"] "" })
    ∧ (∀ pairs a rest d v, getProp pairs a = some v → v ≠ "" →
        resolveTruthy pairs (a :: rest) d = v)
    ∧ (∀ pairs a rest d, getProp pairs a = some "" →
        resolveTruthy pairs (a :: rest) d = resolveTruthy pairs rest d)
    ∧ (∀ pairs a rest d, getProp pairs a = none →
        resolveTruthy pairs (a :: rest) d = resolveTruthy pairs rest d)
    ∧ (∀ pairs d, resolveTruthy pairs [] d = d) := by
  refine ⟨?_, ?_, ?_, ?_, ?_⟩
  · intro pairs
    simp only [normalizeRow, fieldNameAliases, resolveTruthy_cons]
    rfl
  · intro pairs a rest d v h hv
    simp [resolveTruthy, h, hv]
  · intro pairs a rest d h
    simp [resolveTruthy, h]
  · intro pairs a rest d h
    simp [resolveTruthy, h]
  · intro pairs d
    simp [resolveTruthy]

/-- C1, witness for the amended theorem at concrete inputs: on `c1Row` the
truthy-fallback rule skips the empty "Field Name" and takes "X". -/
theorem C1_truthy_fallback_witness :
    resolveTruthy c1Row ("Field Name" :: ["Element Name", "Name"]) "Unknown" =
      resolveTruthy c1Row ["Element Name", "Name"] "Unknown" ∧
    resolveTruthy c1Row ("Element Name" :: ["Name"]) "Unknown" = "X" :=
  ⟨C1_truthy_fallback.2.2.1 c1Row "Field Name" ["Element Name", "Name"] "Unknown" (by decide),
   C1_truthy_fallback.2.1 c1Row "Element Name" ["Name"] "Unknown" "X" (by decide) (by decide)⟩

/-- C2.  In risk-heatmap mode the fill/border is a three-way threshold on
the risk score with a missing score treated as 0: above 75 the high-risk
encoding, above 50 and at most 75 the medium encoding, at most 50 (in
particular a missing score) the low encoding; in normal mode every node
gets the fixed neutral style regardless of score. -/
theorem C2_risk_thresholds :
    (∀ n : GNode, nodeStyle false n = baseStyle)
    ∧ (∀ n : GNode, 75 < n.data.risk_score.getD 0 → nodeStyle true n = highRiskStyle)
    ∧ (∀ n : GNode, 50 < n.data.risk_score.getD 0 → n.data.risk_score.getD 0 ≤ 75 →
        nodeStyle true n = mediumRiskStyle)
    ∧ (∀ n : GNode, n.data.risk_score.getD 0 ≤ 50 → nodeStyle true n = lowRiskStyle)
    ∧ (∀ n : GNode, n.data.risk_score = none → nodeStyle true n = lowRiskStyle) := by
  refine ⟨?_, ?_, ?_, ?_, ?_⟩
  · intro n
    simp [nodeStyle]
  · intro n h
    simp [nodeStyle, h]
  · intro n h1 h2
    have h3 : ¬ (75 < n.data.risk_score.getD 0) := by omega
    simp [nodeStyle, h1, h3]
  · intro n h
    have h1 : ¬ (75 < n.data.risk_score.getD 0) := by omega
    have h2 : ¬ (50 < n.data.risk_score.getD 0) := by omega
    simp [nodeStyle, h1, h2]
  · intro n h
    simp [nodeStyle, h]

/-- C2, witness: the boundary scores 76, 75, 51, 50, 0 and a missing score
map to high, medium, medium, low, low, low, and normal mode is neutral. -/
theorem C2_risk_thresholds_witness :
    nodeStyle true (nodeWithScore (some 76)) = highRiskStyle ∧
    nodeStyle true (nodeWithScore (some 75)) = mediumRiskStyle ∧
    nodeStyle true (nodeWithScore (some 51)) = mediumRiskStyle ∧
    nodeStyle true (nodeWithScore (some 50)) = lowRiskStyle ∧
    nodeStyle true (nodeWithScore (some 0)) = lowRiskStyle ∧
    nodeStyle true (nodeWithScore none) = lowRiskStyle ∧
    nodeStyle false (nodeWithScore (some 76)) = baseStyle :=
  ⟨C2_risk_thresholds.2.1 (nodeWithScore (some 76)) (by decide),
   C2_risk_thresholds.2.2.1 (nodeWithScore (some 75)) (by decide) (by decide),
   C2_risk_thresholds.2.2.1 (nodeWithScore (some 51)) (by decide) (by decide),
   C2_risk_thresholds.2.2.2.1 (nodeWithScore (some 50)) (by decide),
   C2_risk_thresholds.2.2.2.1 (nodeWithScore (some 0)) (by decide),
   C2_risk_thresholds.2.2.2.2 (nodeWithScore none) rfl,
   C2_risk_thresholds.1 (nodeWithScore (some 76))⟩

/-- C3, counterexample.  The claim says a present ownershipPercentage
always wins, including the value 0; but on an edge with percentage 0 and
preset label "PARTNER" the truthiness test skips the falsy 0 and renders
the preset label, not "0%". -/
theorem C3_zero_percent_counterexample :
    c3Edge.data = some { ownership_percentage := some 0 } ∧
    (processEdge c3Edge).label = "PARTNER" ∧
    ("PARTNER" : String) ≠ "0%" := by decide

/-- C3, amended.  The derived edge label is "{ownershipPercentage}%"
whenever the percentage is present and nonzero; when it is absent or zero
(both falsy), the label is the edge's own pre-set label if any, otherwise
empty. -/
theorem C3_edge_label_rule :
    (∀ (e : GEdge) (d : EdgeData) (v : Int), e.data = some d →
        d.ownership_percentage = some v → v ≠ 0 →
        (processEdge e).label = toString v ++ "%")
    ∧ (∀ (e : GEdge) (d : EdgeData), e.data = some d → d.ownership_percentage = some 0 →
        (processEdge e).label = jsOrStr e.label "")
    ∧ (∀ (e : GEdge) (d : EdgeData), e.data = some d → d.ownership_percentage = none →
        (processEdge e).label = jsOrStr e.label "")
    ∧ (∀ e : GEdge, e.data = none → (processEdge e).label = jsOrStr e.label "")
    ∧ (∀ s : String, jsOrStr (some s) "" = s)
    ∧ jsOrStr none "" = "" := by
  refine ⟨?_, ?_, ?_, ?_, ?_, rfl⟩
  · intro e d v hd hv hnz
    simp [processEdge, edgeLabel, hd, hv, hnz]
  · intro e d hd hv
    simp [processEdge, edgeLabel, hd, hv]
  · intro e d hd hv
    simp [processEdge, edgeLabel, hd, hv]
  · intro e hd
    simp [processEdge, edgeLabel, hd]
  · intro s
    cases h : decEq s "" with
    | isTrue he => simp [jsOrStr, he]
    | isFalse he => simp [jsOrStr, he]

/-- C3, witness: an edge with percentage 40 renders "40%"; an edge with no
percentage but preset label "PARTNER" renders "PARTNER"; an edge with
neither renders the empty label. -/
theorem C3_edge_label_rule_witness :
    (processEdge pctEdge).label = toString (40 : Int) ++ "%" ∧
    (processEdge presetEdge).label = jsOrStr presetEdge.label "" ∧
    (processEdge bareEdge).label = jsOrStr bareEdge.label "" ∧
    jsOrStr presetEdge.label "" = "PARTNER" ∧
    jsOrStr bareEdge.label "" = "" :=
  ⟨C3_edge_label_rule.1 pctEdge { ownership_percentage := some 40 } 40 rfl rfl (by decide),
   C3_edge_label_rule.2.2.2.1 presetEdge rfl,
   C3_edge_label_rule.2.2.2.1 bareEdge rfl,
   by decide, by decide⟩

/-- C4, counterexample.  On the empty record the resolver does return a
fully defaulted record, but the fieldName default is the literal "Unknown",
not the empty string the claim requires; and on a row that is not a
key-value structure (null) the property accesses throw (modelled `none`)
instead of returning the defaults. -/
theorem C4_default_counterexample :
    normalizeRow (RawRow.obj []) = some defaultItem ∧
    defaultItem.fieldName = "Unknown" ∧
    ("Unknown" : String) ≠ "" ∧
    normalizeRow RawRow.null = none := by decide

/-- C4, amended.  For every key-value record input, including the empty
record, the resolver returns a fully default-filled canonical record and
never throws; the defaults are the empty string for description, dnbCode,
type and length but the literal "Unknown" for fieldName; an input that is
not a key-value structure (a null row) makes per-row resolution throw
rather than return defaults. -/
theorem C4_resolver_totality :
    (∀ pairs : List (String × String), (normalizeRow (RawRow.obj pairs)).isSome = true)
    ∧ normalizeRow (RawRow.obj []) = some defaultItem
    ∧ defaultItem.description = "" ∧ defaultItem.dnbCode = "" ∧ defaultItem.type = ""
    ∧ defaultItem.length = "" ∧ defaultItem.fieldName = "Unknown"
    ∧ normalizeRow RawRow.null = none := by
  refine ⟨fun pairs => rfl, by decide, rfl, rfl, rfl, rfl, rfl, rfl⟩

/-- C5, counterexample.  Three concrete inputs refute the claim: a failed
graph fetch installs the fixed three-node mock demo set, not an empty
data set; an HTTP-error response with a non-array JSON body resolves
unchecked into the modules state and crashes the sidebar render; the same
body reaches the dictionary Promise.all handler, whose map throws and
wedges the panel instead of yielding an empty slice; and the sample slice
stores and displays that body verbatim instead of yielding an absent
result. -/
theorem C5_degradation_counterexample :
    (handleSearch emptyHome (Except.error ())).nodes = mockNodes ∧
    mockNodes ≠ [] ∧
    loadModules (JsArr.arr [])
        (FetchOutcome.resolved false (JsArr.nonArray errorBodyJson)) =
      JsArr.nonArray errorBodyJson ∧
    renderModules (JsArr.nonArray errorBodyJson) = none ∧
    fetchDict (FetchOutcome.resolved false (JsArr.nonArray errorBodyJson)) =
      JsArr.nonArray errorBodyJson ∧
    explorerLoad (JsArr.nonArray errorBodyJson) none = none ∧
    fetchSample (FetchOutcome.resolved false errorBodyJson) = some errorBodyJson ∧
    some errorBodyJson ≠ (none : Option String) := by decide

/-- C5, amended.  Only the try/catch-wrapped fetches degrade on every
failure path: a failed graph fetch installs the fixed three-node mock demo
set plus an error notice (not an empty set; a well-shaped graph response
missing its keys does yield empty sets), and a failed golden-record fetch
yields an absent record plus a notice.  The explorer fetches check neither
res.ok nor the response shape, so only promise rejections (network
failure, invalid JSON) degrade — to an empty dictionary array, an absent
sample, and an unchanged modules value — while any resolved body passes
through unchecked regardless of HTTP status: a non-array body is committed
to the modules state and crashes the sidebar render, makes the dictionary
continuation die before committing anything (wedging the panel in
loading), and is displayed verbatim as the sample; a well-shaped
dictionary array of key-value rows does commit normalized items with
loading cleared. -/
theorem C5_fetch_degradation :
    (∀ (rows : List RawRow) (s : Option String) (d : List DictionaryItem),
      rows.mapM normalizeRow = some d →
      explorerLoad (JsArr.arr rows) s =
        some { dictionary := d, sample := s, loading := false })
    ∧ (∀ s : HomeState, handleSearch s (Except.error ()) =
        { nodes := mockNodes, edges := mockEdges,
          error := "Failed to fetch graph data. Is the backend running?" })
    ∧ (∀ s : HomeState, handleSearch s (Except.ok { nodes := none, edges := none }) =
        { nodes := [], edges := [], error := "" })
    ∧ fetchData (Except.error ()) = { data := none, error := "Could not load entity details." }
    ∧ fetchDict FetchOutcome.rejected = JsArr.arr []
    ∧ fetchSample FetchOutcome.rejected = none
    ∧ (∀ prev : JsArr Module, loadModules prev FetchOutcome.rejected = prev)
    ∧ (∀ (ok : Bool) (body : JsArr RawRow),
        fetchDict (FetchOutcome.resolved ok body) = body)
    ∧ (∀ (ok : Bool) (body : String),
        fetchSample (FetchOutcome.resolved ok body) = some body)
    ∧ (∀ (prev : JsArr Module) (ok : Bool) (body : JsArr Module),
        loadModules prev (FetchOutcome.resolved ok body) = body)
    ∧ (∀ v : String, renderModules (JsArr.nonArray v) = none)
    ∧ (∀ (v : String) (s : Option String), explorerLoad (JsArr.nonArray v) s = none) := by
  refine ⟨?_, fun _ => rfl, fun _ => rfl, rfl, rfl, rfl, fun _ => rfl,
    fun _ _ => rfl, fun _ _ => rfl, fun _ _ _ => rfl, fun _ => rfl, fun _ _ => rfl⟩
  intro rows s d h
  simp only [explorerLoad]
  rw [h]
  rfl

/-- C5, witness for the amended theorem: a one-row dictionary array of a
key-value row commits its normalized item with loading cleared. -/
theorem C5_fetch_degradation_witness :
    explorerLoad (JsArr.arr [RawRow.obj []]) (some "sample") =
      some { dictionary := [defaultItem], sample := some "sample", loading := false } :=
  C5_fetch_degradation.1 [RawRow.obj []] (some "sample") [defaultItem] (by decide)

/-- C6, counterexample.  Entity B's graph is fetched and its response
arrives first; the slower, now-stale response for entity A arrives
afterwards.  With no staleness guard, the final state holds A's node, not
only B's nodes as the claim requires. -/
theorem C6_stale_fetch_counterexample :
    (applyCompletions emptyHome [Except.ok payloadB, Except.ok payloadA]).nodes = [nodeA] ∧
    nodeA ≠ nodeB ∧ [nodeA] ≠ [nodeB] := by decide

/-- C6, amended.  Graph fetches are fetch-and-replace: the state after any
sequence of completions whose last arrival is a successful fetch of payload
p holds exactly p's nodes and edges (missing keys giving empty lists), with
no residue from any earlier graph.  The no-residual-A guarantee therefore
holds when B's response arrives last, but there is no staleness guard: a
stale response for A arriving after B's overwrites B's state in the same
wholesale way. -/
theorem C6_last_fetch_replaces :
    ∀ (s : HomeState) (rs : List (Except Unit GraphPayload)) (p : GraphPayload),
      applyCompletions s (rs ++ [Except.ok p]) =
        { nodes := p.nodes.getD [], edges := p.edges.getD [], error := "" } := by
  intro s rs p
  simp [applyCompletions, List.foldl_append, handleSearch]

/-- C7, counterexample.  The claim says a present score of 0 is shown
numerically; but `risk_score || 'N/A'` treats the present value 0 as falsy
and renders the not-available marker instead of "0". -/
theorem C7_zero_score_counterexample :
    (nodeWithScore (some 0)).data.risk_score = some 0 ∧
    riskLine true (nodeWithScore (some 0)) = some "Risk Score: N/A" ∧
    some ("Risk Score: N/A" : String) ≠ some ("Risk Score: " ++ toString (0 : Int)) := by
  decide

/-- C7, amended.  In risk-heatmap mode every processed node's label carries
a risk-score line; that line shows the literal not-available marker exactly
when the score is absent or 0 (falsy), and shows the score numerically when
it is present and nonzero; in normal mode no risk-score line is rendered. -/
theorem C7_risk_label_rule :
    (∀ n : GNode, (processNode true n).label.riskLine =
      some ("Risk Score: " ++ riskScoreText n.data.risk_score))
    ∧ (∀ (n : GNode) (v : Int), n.data.risk_score = some v → v ≠ 0 →
        riskLine true n = some ("Risk Score: " ++ toString v))
    ∧ (∀ n : GNode, n.data.risk_score = none → riskLine true n = some "Risk Score: N/A")
    ∧ (∀ n : GNode, n.data.risk_score = some 0 → riskLine true n = some "Risk Score: N/A")
    ∧ (∀ n : GNode, riskLine false n = none) := by
  refine ⟨?_, ?_, ?_, ?_, ?_⟩
  · intro n
    simp [processNode, riskLine]
  · intro n v hv hnz
    simp [riskLine, riskScoreText, hv, hnz]
  · intro n h
    simp [riskLine, riskScoreText, h]
  · intro n h
    simp [riskLine, riskScoreText, h]
  · intro n
    simp [riskLine]

/-- C7, witness: a node with score 10 renders "Risk Score: 10", nodes with
a missing score or score 0 render the marker, and the risk line exists on
every processed node in risk mode. -/
theorem C7_risk_label_rule_witness :
    (processNode true unnamedNode).label.riskLine =
      some ("Risk Score: " ++ riskScoreText unnamedNode.data.risk_score) ∧
    riskLine true unnamedNode = some ("Risk Score: " ++ toString (10 : Int)) ∧
    riskLine true (nodeWithScore none) = some "Risk Score: N/A" ∧
    riskLine true (nodeWithScore (some 0)) = some "Risk Score: N/A" ∧
    riskLine false unnamedNode = none :=
  ⟨C7_risk_label_rule.1 unnamedNode,
   C7_risk_label_rule.2.1 unnamedNode 10 rfl (by decide),
   C7_risk_label_rule.2.2.1 (nodeWithScore none) rfl,
   C7_risk_label_rule.2.2.2.1 (nodeWithScore (some 0)) rfl,
   C7_risk_label_rule.2.2.2.2 unnamedNode⟩

/-- C8.  For every canonical attribute that has a lineage entry, the hover
tooltip surfaces the entry's source, the payload id truncated to its first
8 characters followed by an ellipsis marker, the confidence as an integer
percentage within half a unit of confidence multiplied by 100 (rounded to
the nearest whole number), and file/path lines only when the corresponding
optional field is present (and then with its value). -/
theorem C8_lineage_tooltip (d : EntityData) (lm : List (String × LineageInfo))
    (k : String) (l : LineageInfo)
    (hd : d.lineage_metadata = some lm) (hk : getProp lm k = some l) :
    ∃ t : Tooltip, renderFieldTooltip d k = some t ∧
      t.source = l.source ∧
      t.payloadIdText = l.payload_id.take 8 ++ "..." ∧
      (∃ m : ℤ, t.confidenceText = toString m ++ "%" ∧ |(m : ℚ) - l.confidence * 100| ≤ 1 / 2) ∧
      (∀ s : String, t.fileLine = some s → l.file_name = some s) ∧
      (∀ s : String, t.pathLine = some s → l.json_path = some s) := by
  refine ⟨renderTooltip l, ?_, rfl, rfl, ?_, ?_, ?_⟩
  · simp [renderFieldTooltip, hd, hk]
  · exact ⟨toFixed0 (l.confidence * 100), rfl, toFixed0_nearest _⟩
  · intro s hs
    simp only [renderTooltip, truthyLine] at hs
    cases hf : l.file_name with
    | none => simp [hf] at hs
    | some s0 =>
        rw [hf] at hs
        by_cases h0 : s0 = "" <;> simp [h0] at hs
        rw [hs]
  · intro s hs
    simp only [renderTooltip, truthyLine] at hs
    cases hf : l.json_path with
    | none => simp [hf] at hs
    | some s0 =>
        rw [hf] at hs
        by_cases h0 : s0 = "" <;> simp [h0] at hs
        rw [hs]

/-- C8, witness: the spec's example entry (source ERP, payload id
abcdefgh1234, confidence 0.87, no file or path) surfaces source "ERP",
truncated id "abcdefgh...", confidence "87%", and no file or path lines. -/
theorem C8_lineage_tooltip_witness :
    (∃ t : Tooltip, renderFieldTooltip entityEx "revenue_usd" = some t ∧
      t.source = lineageEx.source ∧
      t.payloadIdText = lineageEx.payload_id.take 8 ++ "..." ∧
      (∃ m : ℤ, t.confidenceText = toString m ++ "%" ∧
        |(m : ℚ) - lineageEx.confidence * 100| ≤ 1 / 2) ∧
      (∀ s : String, t.fileLine = some s → lineageEx.file_name = some s) ∧
      (∀ s : String, t.pathLine = some s → lineageEx.json_path = some s)) ∧
    renderFieldTooltip entityEx "revenue_usd" =
      some { source := "ERP", payloadIdText := "abcdefgh...", confidenceText := "87%",
             fileLine := none, pathLine := none } := by
  refine ⟨C8_lineage_tooltip entityEx [("revenue_usd", lineageEx)] "revenue_usd" lineageEx rfl rfl, ?_⟩
  have h87 : toFixed0 ((87 / 100 : ℚ) * 100) = 87 := by
    unfold toFixed0
    rw [Int.floor_eq_iff]
    constructor <;> norm_num
  have hrender : renderTooltip lineageEx =
      { source := "ERP", payloadIdText := "abcdefgh...", confidenceText := "87%",
        fileLine := none, pathLine := none } := by
    simp only [renderTooltip, lineageEx, truthyLine, h87]
    decide
  have hget : renderFieldTooltip entityEx "revenue_usd" = some (renderTooltip lineageEx) := rfl
  rw [hget, hrender]

/-- C9.  User-drawn connections and drag position changes touch only the
view's local working copy: `onConnect` changes only the local edge copy and
`onNodeDrag` only the local node copy, neither ever touching the upstream
slices; and the synchronization effect recomputes the local copies purely
from the upstream slices and the mode, so two sessions with equal upstream
slices end with equal views after a snapshot replacement no matter what
local edits each had — the edits are wholly discarded. -/
theorem C9_view_local_edits :
    (∀ (st : SessionState) (c : Connection),
      (onConnect st c).upstreamNodes = st.upstreamNodes ∧
      (onConnect st c).upstreamEdges = st.upstreamEdges ∧
      (onConnect st c).viewNodes = st.viewNodes)
    ∧ (∀ (st : SessionState) (nodeId : String) (pos : Int × Int),
        (onNodeDrag st nodeId pos).upstreamNodes = st.upstreamNodes ∧
        (onNodeDrag st nodeId pos).upstreamEdges = st.upstreamEdges ∧
        (onNodeDrag st nodeId pos).viewEdges = st.viewEdges)
    ∧ (∀ (st : SessionState) (m : Bool),
        syncFromProps st m =
          { upstreamNodes := st.upstreamNodes, upstreamEdges := st.upstreamEdges,
            viewNodes := processNodes st.upstreamNodes m,
            viewEdges := processEdges st.upstreamEdges })
    ∧ (∀ (st st' : SessionState) (m : Bool),
        st.upstreamNodes = st'.upstreamNodes → st.upstreamEdges = st'.upstreamEdges →
        (syncFromProps st m).viewNodes = (syncFromProps st' m).viewNodes ∧
        (syncFromProps st m).viewEdges = (syncFromProps st' m).viewEdges) := by
  refine ⟨?_, ?_, ?_, ?_⟩
  · intro st c
    exact ⟨rfl, rfl, rfl⟩
  · intro st nodeId pos
    exact ⟨rfl, rfl, rfl⟩
  · intro st m
    rfl
  · intro st st' m hn he
    constructor
    · simp [syncFromProps, hn]
    · simp [syncFromProps, he]

/-- C9, witness: after drawing a connection on `sessionEx`, the upstream
slices are untouched and the next snapshot synchronization yields the same
view as a session that never saw the edit. -/
theorem C9_view_local_edits_witness :
    ((onConnect sessionEx connEx).upstreamNodes = sessionEx.upstreamNodes ∧
     (onConnect sessionEx connEx).upstreamEdges = sessionEx.upstreamEdges ∧
     (onConnect sessionEx connEx).viewNodes = sessionEx.viewNodes) ∧
    ((syncFromProps (onConnect sessionEx connEx) true).viewNodes =
       (syncFromProps sessionEx true).viewNodes ∧
     (syncFromProps (onConnect sessionEx connEx) true).viewEdges =
       (syncFromProps sessionEx true).viewEdges) :=
  ⟨C9_view_local_edits.1 sessionEx connEx,
   C9_view_local_edits.2.2.2 (onConnect sessionEx connEx) sessionEx true rfl rfl⟩

/-- C10, counterexample.  The fallback `String(node.data.name || node.id)`
cannot make a label nonempty when the id itself is the empty string: the
node with empty id and no name renders a blank display-name line in both
modes, so "a node is never labeled blank" fails as stated. -/
theorem C10_blank_label_counterexample :
    blankNode.data.name = none ∧
    displayName blankNode = "" ∧
    (processNode false blankNode).label.displayName = "" ∧
    (processNode true blankNode).label.displayName = "" := by decide

/-- C10, amended.  In both display modes the display-name line of the
rendered label equals the truthy-fallback of the node's name to its id: the
id is used whenever the name is absent or the empty string; hence a node
whose id is nonempty is never labeled blank (only the degenerate empty-id,
nameless node is). -/
theorem C10_name_fallback :
    (∀ (n : GNode) (m : Bool), (processNode m n).label.displayName = displayName n)
    ∧ (∀ n : GNode, n.data.name = none → displayName n = n.id)
    ∧ (∀ n : GNode, n.data.name = some "" → displayName n = n.id)
    ∧ (∀ (n : GNode) (s : String), n.data.name = some s → s ≠ "" → displayName n = s)
    ∧ (∀ n : GNode, n.id ≠ "" → displayName n ≠ "") := by
  refine ⟨?_, ?_, ?_, ?_, ?_⟩
  · intro n m
    rfl
  · intro n h
    simp [displayName, h]
  · intro n h
    simp [displayName, h]
  · intro n s h hs
    simp [displayName, h, hs]
  · intro n hid
    unfold displayName
    cases h : n.data.name with
    | none => exact hid
    | some s =>
        by_cases hs : s = ""
        · simp [hs]
          exact hid
        · simp [hs]

/-- C10, witness: a nameless node with id "N1" and an empty-named node with
id "N2" are labeled by their ids, which are nonempty, in both modes. -/
theorem C10_name_fallback_witness :
    (processNode true unnamedNode).label.displayName = displayName unnamedNode ∧
    displayName unnamedNode = unnamedNode.id ∧
    displayName emptyNameNode = emptyNameNode.id ∧
    displayName unnamedNode ≠ "" ∧
    displayName emptyNameNode ≠ "" :=
  ⟨C10_name_fallback.1 unnamedNode true,
   C10_name_fallback.2.1 unnamedNode rfl,
   C10_name_fallback.2.2.1 emptyNameNode rfl,
   C10_name_fallback.2.2.2.2 unnamedNode (by decide),
   C10_name_fallback.2.2.2.2 emptyNameNode (by decide)⟩

end EntityNexus
